import Mathlib

/-
  Verification of the SimBrief uplink adapter
  (src/fbw-a32nx/src/systems/fmgc/src/flightplanning/new/uplink/SimBriefUplinkAdapter.ts).

  The file embeds the two core components of the adapter:
  - the navlog classifier `generateRouteInstructionsFromNavlog` (a pure function
    from raw fix records to typed route chunks), and
  - the chunk-by-chunk route synthesizer inside `uplinkFlightPlanFromSimbrief`,
    modelled as a state machine over an explicit state (external route data,
    pending airway accumulator, insertion cursor) parameterised by an
    environment of external services (navigation database lookups, route
    mutation primitives, geographic distance).

  JavaScript numbers that can be NaN (parsed coordinates, distances) are
  modelled as `Option Rat`, with `none` playing the role of NaN; the JS
  comparison `<` is `jsLt`, which is false whenever either side is NaN.
-/

set_option linter.unusedVariables false

namespace SimBriefUplink

/-- A JavaScript number used for coordinates and distances: `none` models NaN
(for example the result of parseFloat on malformed text), `some q` an ordinary
finite value. -/
abbrev JsNum := Option ℚ

/-- The JavaScript comparison `a < b` on possibly-NaN numbers: any comparison
involving NaN is false. -/
def jsLt : JsNum → JsNum → Bool
  | some a, some b => decide (a < b)
  | _, _ => false

/-- The JavaScript constant Number.MAX_SAFE_INTEGER, the initial minimum in the
nearest-candidate loops of the adapter. -/
def maxSafeInteger : ℚ := 9007199254740991

/-- Models the JavaScript parseFloat builtin (external to the repository) on
decimal inputs: leading spaces are skipped, then an optional sign, integer
digits and an optional fractional part are consumed as the longest numeric
prefix and the rest of the string is ignored; if no digit is consumed the
result is NaN (`none`). Exponent notation and Infinity are not modelled, as
navlog coordinates are plain signed decimals. -/
def parseFloat (s : String) : JsNum :=
  let cs := s.toList.dropWhile (fun c => c == ' ')
  let signAndRest : ℤ × List Char :=
    match cs with
    | '-' :: rest => (-1, rest)
    | '+' :: rest => (1, rest)
    | _ => (1, cs)
  let intDigits := signAndRest.2.takeWhile Char.isDigit
  let afterInt := signAndRest.2.dropWhile Char.isDigit
  let fracDigits : List Char :=
    match afterInt with
    | '.' :: rest => rest.takeWhile Char.isDigit
    | _ => []
  if intDigits.isEmpty && fracDigits.isEmpty then none
  else
    let intVal : ℕ := intDigits.foldl (fun a c => a * 10 + (c.toNat - 48)) 0
    let fracVal : ℕ := fracDigits.foldl (fun a c => a * 10 + (c.toNat - 48)) 0
    let scale : ℕ := 10 ^ fracDigits.length
    some (Rat.divInt (signAndRest.1 * ((intVal * scale + fracVal : ℕ) : ℤ)) (scale : ℤ))

/-- A coordinate pair as carried by chunks and fixes (the Coordinates type of
msfs-geo at the interface boundary). -/
structure Coordinates where
  lat : JsNum
  long : JsNum
deriving DecidableEq, Repr

/-- A raw navlog fix record as read from the SimBrief OFP document
(the external RawFixRecord input of the classifier); all fields are the raw
strings of the document. -/
structure RawFix where
  ident : String
  type : String
  pos_lat : String
  pos_long : String
  via_airway : String
  is_sid_star : String
deriving DecidableEq, Repr

/-- The OfpRouteChunk union of SimBriefUplinkAdapter.ts (lines 93-101), one
constructor per instruction tag. -/
inductive OfpRouteChunk where
  | airway (ident : String) (locationHint : Coordinates)
  | airwayTermination (ident : String)
  | waypoint (ident : String) (locationHint : Coordinates)
  | latlong (lat : JsNum) (long : JsNum)
  | dct
  | procedure (ident : String)
  | sidEnrouteTransition (ident : String) (locationHint : Coordinates)
  | starEnrouteTransition (ident : String)
deriving DecidableEq, Repr

/-- Tag test for airway chunks. -/
def chunkIsAirway : OfpRouteChunk → Bool
  | .airway _ _ => true
  | _ => false

/-- Tag test for airwayTermination chunks. -/
def chunkIsTermination : OfpRouteChunk → Bool
  | .airwayTermination _ => true
  | _ => false

/-- Tag test for procedure chunks. -/
def chunkIsProcedure : OfpRouteChunk → Bool
  | .procedure _ => true
  | _ => false

/-- Tag test for waypoint chunks. -/
def chunkIsWaypoint : OfpRouteChunk → Bool
  | .waypoint _ _ => true
  | _ => false

/-- The test of line 414 of the source: the previous instruction exists, is a
procedure chunk, and carries the given identifier. -/
def isProcedureFor (c? : Option OfpRouteChunk) (ident : String) : Bool :=
  match c? with
  | some (.procedure pid) => pid == ident
  | _ => false

/-- The test of line 427 of the source: the previous instruction exists, is an
airway chunk, and carries the given identifier. -/
def isAirwayFor (c? : Option OfpRouteChunk) (ident : String) : Bool :=
  match c? with
  | some (.airway aid _) => aid == ident
  | _ => false

/-- The oceanic-track pattern of line 417 of the source: the regular expression
NAT followed by exactly one capital letter. -/
def isNatTrack (s : String) : Bool :=
  match s.toList with
  | ['N', 'A', 'T', c] => decide ('A' ≤ c ∧ c ≤ 'Z')
  | _ => false

/-- The direct-routing via test of line 417 of the source: the literal markers
DCT and DCT*, or an oceanic NAT track code. -/
def isDirectVia (s : String) : Bool :=
  s == "DCT" || s == "DCT*" || isNatTrack s

/-- The skip test of line 400 of the source: top-of-climb and top-of-descent
markers and airport records contribute no chunk. -/
def skipFix (f : RawFix) : Bool :=
  f.ident == "TOC" || f.ident == "TOD" || f.type == "apt"

/-- One iteration of the classifier loop body before the end-of-airway
post-check: lines 406-434 of the source. `lastFix?` is the raw record at the
previous navlog index (skipped or not), `acc` the instructions emitted so far;
`lastInstruction?` is captured once, as in the source. -/
def classifyMain (lastFix? : Option RawFix) (fix : RawFix) (acc : List OfpRouteChunk) : List OfpRouteChunk :=
  let lastInstruction? := acc.getLast?
  let hint : Coordinates := { lat := parseFloat fix.pos_lat, long := parseFloat fix.pos_long }
  if fix.is_sid_star == "1" then
    match lastInstruction? with
    | none => acc ++ [.procedure fix.via_airway]
    | some lastInstruction =>
      if chunkIsProcedure lastInstruction then acc
      else acc ++ [.procedure fix.via_airway]
  else if isProcedureFor lastInstruction? fix.via_airway then
    acc ++ [.sidEnrouteTransition fix.ident hint]
  else if isDirectVia fix.via_airway || acc.isEmpty then
    if fix.type == "ltlg" then
      acc ++ [.latlong (parseFloat fix.pos_lat) (parseFloat fix.pos_long)]
    else
      acc ++ [.waypoint fix.ident hint]
  else if !(isAirwayFor lastInstruction? fix.via_airway) then
    let acc1 :=
      match lastFix?, lastInstruction? with
      | some lastFix, some lastInstruction =>
        if chunkIsAirway lastInstruction && fix.via_airway != lastFix.via_airway then
          acc ++ [.airwayTermination lastFix.ident]
        else acc
      | _, _ => acc
    acc1 ++ [.airway fix.via_airway hint]
  else
    acc

/-- The end-of-airway post-check of lines 436-439 of the source: after the main
body, if the freshly read last instruction is an airway and the next raw record
carries a different via identifier (or there is no next record), an
airwayTermination at the current fix identifier is appended. -/
def classifyPost (fix : RawFix) (next? : Option RawFix) (acc : List OfpRouteChunk) : List OfpRouteChunk :=
  if (match acc.getLast? with | some c => chunkIsAirway c | none => false)
      && (next?.map (fun n => n.via_airway)) != some fix.via_airway then
    acc ++ [.airwayTermination fix.ident]
  else acc

/-- The classifier loop of lines 396-440 of the source, as structural recursion
over the navlog: `prev` is the raw record at the previous index (present even
when that record was skipped, exactly as navlog[i - 1] in the source) and the
head of the remaining list is the current record, with navlog[i + 1] read as
the head of the tail. -/
def classifyGo : Option RawFix → List RawFix → List OfpRouteChunk → List OfpRouteChunk
  | _, [], acc => acc
  | prev, f :: rest, acc =>
    if skipFix f then classifyGo (some f) rest acc
    else classifyGo (some f) rest (classifyPost f rest.head? (classifyMain prev f acc))

/-- The classifier generateRouteInstructionsFromNavlog (lines 393-443 of the
source). -/
def generateRouteInstructionsFromNavlog (navlog : List RawFix) : List OfpRouteChunk :=
  classifyGo none navlog []

example : parseFloat "49.5" = some (Rat.divInt 99 2) := by decide
example : parseFloat "N49" = none := by decide
example : parseFloat "-3.25" = some (Rat.divInt (-13) 4) := by decide
example : parseFloat "3" = some 3 := by decide
example : isNatTrack "NATA" = true := by decide
example : isNatTrack "AWY1" = false := by decide

/-- The example navlog of the specification: an airport record, two SID/STAR
fixes on SIDX, the SID exit fix C, a direct fix D, two fixes on airway AWY1 and
a final direct fix G. -/
def exampleNavlog : List RawFix :=
  [ { ident := "EDDF", type := "apt", pos_lat := "50", pos_long := "8", via_airway := "DCT", is_sid_star := "0" }
  , { ident := "A", type := "wpt", pos_lat := "1", pos_long := "1", via_airway := "SIDX", is_sid_star := "1" }
  , { ident := "B", type := "wpt", pos_lat := "2", pos_long := "2", via_airway := "SIDX", is_sid_star := "1" }
  , { ident := "C", type := "ltlg", pos_lat := "3", pos_long := "3", via_airway := "SIDX", is_sid_star := "0" }
  , { ident := "D", type := "wpt", pos_lat := "4", pos_long := "4", via_airway := "DCT", is_sid_star := "0" }
  , { ident := "E", type := "wpt", pos_lat := "5", pos_long := "5", via_airway := "AWY1", is_sid_star := "0" }
  , { ident := "F", type := "wpt", pos_lat := "6", pos_long := "6", via_airway := "AWY1", is_sid_star := "0" }
  , { ident := "G", type := "wpt", pos_lat := "7", pos_long := "7", via_airway := "DCT", is_sid_star := "0" } ]

example : generateRouteInstructionsFromNavlog exampleNavlog =
    [ .procedure "SIDX"
    , .sidEnrouteTransition "C" { lat := some 3, long := some 3 }
    , .waypoint "D" { lat := some 4, long := some 4 }
    , .airway "AWY1" { lat := some 5, long := some 5 }
    , .airwayTermination "F"
    , .waypoint "G" { lat := some 7, long := some 7 } ] := by decide

/-- Counterexample input for C2: two ordinary fixes sharing the non-direct via
identifier AWY1, no SID/STAR marker, no coordinate-type fix. -/
def sameViaNavlog : List RawFix :=
  [ { ident := "A", type := "wpt", pos_lat := "1", pos_long := "1", via_airway := "AWY1", is_sid_star := "0" }
  , { ident := "B", type := "wpt", pos_lat := "2", pos_long := "2", via_airway := "AWY1", is_sid_star := "0" } ]

example : generateRouteInstructionsFromNavlog sameViaNavlog =
    [ .waypoint "A" { lat := some 1, long := some 1 }
    , .airway "AWY1" { lat := some 2, long := some 2 }
    , .airwayTermination "B" ] := by decide

/-- Counterexample input for C3: an airway is entered at E, the following TOC
marker carries the same via identifier (so the end-of-airway post-check never
fires) and is itself skipped, and the route then continues direct. -/
def tocSwallowNavlog : List RawFix :=
  [ { ident := "D", type := "wpt", pos_lat := "1", pos_long := "1", via_airway := "DCT", is_sid_star := "0" }
  , { ident := "E", type := "wpt", pos_lat := "2", pos_long := "2", via_airway := "AWY1", is_sid_star := "0" }
  , { ident := "TOC", type := "wpt", pos_lat := "3", pos_long := "3", via_airway := "AWY1", is_sid_star := "0" }
  , { ident := "G", type := "wpt", pos_lat := "4", pos_long := "4", via_airway := "DCT", is_sid_star := "0" } ]

example : generateRouteInstructionsFromNavlog tocSwallowNavlog =
    [ .waypoint "D" { lat := some 1, long := some 1 }
    , .airway "AWY1" { lat := some 2, long := some 2 }
    , .waypoint "G" { lat := some 4, long := some 4 } ] := by decide

/-- Counterexample input for C4: two consecutive SID/STAR fixes whose via
identifiers differ (P1 then P2). -/
def twoProcNavlog : List RawFix :=
  [ { ident := "A", type := "wpt", pos_lat := "1", pos_long := "1", via_airway := "P1", is_sid_star := "1" }
  , { ident := "B", type := "wpt", pos_lat := "2", pos_long := "2", via_airway := "P2", is_sid_star := "1" } ]

example : generateRouteInstructionsFromNavlog twoProcNavlog = [.procedure "P1"] := by decide

/-! ## The route synthesizer

The chunk loop of uplinkFlightPlanFromSimbrief (lines 213-358 of the source),
modelled as a state machine. External collaborators (navigation database,
route mutation primitives of the flight plan service, geographic distance) are
an environment of pure functions; the state carries the external route data
the loop reads, the pending airway accumulator, the insertion cursor and a
trace of the mutation calls issued to the external route model. -/

/-- A navigation fix as returned by the navigation database. -/
structure Fix where
  ident : String
  icaoCode : String
  location : Coordinates
deriving DecidableEq, Repr

/-- An airway as returned by the navigation database: a named chain of fixes. -/
structure Airway where
  ident : String
  fixes : List Fix
deriving DecidableEq, Repr

/-- A departure, arrival or enroute-transition procedure record as returned by
the navigation database (only the fields the adapter reads). -/
structure ProcedureRec where
  ident : String
  databaseId : String
deriving DecidableEq, Repr

/-- An element of the linear leg sequence of the external route: either a
discontinuity marker or a leg, whose terminationWaypoint accessor may return
no fix. -/
inductive PlanElement where
  | discontinuity
  | leg (terminationWaypoint : Option Fix)
deriving DecidableEq, Repr

/-- Modelled from the spec: one entry of the pending-airway accumulator of the
external route model (the elements array read at lines 315-317 and 341 of the
source); an entry appended by the append-airway primitive carries an airway
and an entry appended by the append-termination-fix primitive carries a fix,
either of which may be absent when the picked value was undefined. The field
named to in the source is named toFix here because to is reserved in Lean. -/
structure PendingAirwayElement where
  airway : Option Airway
  toFix : Option Fix
deriving DecidableEq, Repr

/-- Modelled from the spec: the pending-airway accumulator handle of the
external route model, anchored at the insertion cursor when started and
accumulating elements until finalized. -/
structure PendingAirways where
  anchorHead : Int
  elements : List PendingAirwayElement
deriving DecidableEq, Repr

/-- Modelled from the spec: the append-airway primitive of the pending-airway
accumulator (thenAirway at line 324 of the source) records the chosen airway,
which is absent when the nearest-airway selection selected nothing. -/
def PendingAirways.thenAirway (pa : PendingAirways) (aw : Option Airway) : PendingAirways :=
  { pa with elements := pa.elements ++ [{ airway := aw, toFix := none }] }

/-- Modelled from the spec: the append-termination-fix primitive of the
pending-airway accumulator (thenTo at line 346 of the source) records the
chosen termination fix, which is absent when no candidate matched. -/
def PendingAirways.thenTo (pa : PendingAirways) (fx : Option Fix) : PendingAirways :=
  { pa with elements := pa.elements ++ [{ airway := none, toFix := fx }] }

/-- The external route data read by the loop: the five segment leg counts
summed by setInsertHeadToEndOfEnroute, the linear leg sequence, and the
enroute transitions of the attached departure (absent when none is attached). -/
structure Route where
  originSegmentLegCount : ℕ
  departureRunwayTransitionSegmentLegCount : ℕ
  departureSegmentLegCount : ℕ
  departureEnrouteTransitionSegmentLegCount : ℕ
  enrouteSegmentLegCount : ℕ
  allLegs : List PlanElement
  originDepartureTransitions : Option (List ProcedureRec)
deriving DecidableEq, Repr

/-- The error conditions that abort a synthesis run: InvalidSequence for a
procedure chunk away from the ends (line 223), NotFound for an empty required
lookup (lines 260, 286, 326, 329, 350), and the JavaScript TypeError raised by
a property access on undefined in the defensive airway paths. -/
inductive UplinkError where
  | invalidSequence
  | notFound
  | typeError
deriving DecidableEq, Repr

/-- One call issued to the external route model, recorded in order. -/
inductive UplinkEvent where
  | nextWaypoint (insertHead : Int) (fx : Option Fix)
  | setDepartureProcedure (databaseId : String)
  | setArrival (databaseId : String)
  | setDepartureEnrouteTransition (databaseId : String)
  | startAirwayEntry (insertHead : Int)
  | thenAirway (aw : Option Airway)
  | thenTo (fx : Option Fix)
  | finalize
deriving DecidableEq, Repr

/-- The environment of external collaborators: uplink options and route header
fields, the navigation database lookups, the geographic distance function, the
locally synthesized coordinate waypoint, and the effect of each route mutation
primitive on the external route data. -/
structure Env where
  doUplinkProcedures : Bool
  fromIdent : String
  fromRwy : String
  toIdent : String
  searchAllFix : String → List Fix
  searchAirway : String → Fix → List Airway
  getDepartures : String → String → List ProcedureRec
  getArrivals : String → List ProcedureRec
  distanceTo : Coordinates → Coordinates → JsNum
  createLatLonWaypoint : JsNum → JsNum → Fix
  nextWaypointEff : Route → Int → Option Fix → Route
  setDepartureProcedureEff : Route → String → Route
  setArrivalEff : Route → String → Route
  setDepartureEnrouteTransitionEff : Route → String → Route
  finalizeEff : Route → PendingAirways → Route

/-- The mutable state of one synthesis run: the external route data, the
pending airway accumulator (undefined when no airway is being built), the
insertion cursor, and the trace of mutation calls issued so far. -/
structure SynthState where
  route : Route
  pendingAirways : Option PendingAirways
  insertHead : Int
  trace : List UplinkEvent
deriving DecidableEq, Repr

/-- The allLegs indexing of the external route, with a JavaScript array read:
out-of-range and negative indices yield undefined. -/
def elementAtRoute (r : Route) (i : Int) : Option PlanElement :=
  if i < 0 then none else r.allLegs.get? i.toNat

/-- setInsertHeadToEndOfEnroute (lines 147-162 of the source): the cursor is
the sum of the five leg counts minus one, decremented once more when the
enroute segment holds more than one leg and the leg at the computed index is a
discontinuity marker. -/
def computeInsertHead (r : Route) : Int :=
  let head : Int := (r.originSegmentLegCount : Int)
    + (r.departureRunwayTransitionSegmentLegCount : Int)
    + (r.departureSegmentLegCount : Int)
    + (r.departureEnrouteTransitionSegmentLegCount : Int)
    + (r.enrouteSegmentLegCount : Int) - 1
  if 1 < r.enrouteSegmentLegCount then
    match elementAtRoute r head with
    | some PlanElement.discontinuity => head - 1
    | _ => head
  else head

/-- The nearest-fix loop body of pickFix (lines 179-188 of the source),
carrying the running minimum distance and its index; a comparison against NaN
is false, so NaN distances never update the minimum. -/
def pickFixLoop (env : Env) (hint : Coordinates) : List Fix → ℕ → JsNum → Int → Int
  | [], _, _, best => best
  | f :: rest, i, minD, best =>
    let d := env.distanceTo f.location hint
    if jsLt d minD then pickFixLoop env hint rest (i + 1) d (i : Int)
    else pickFixLoop env hint rest (i + 1) minD best

/-- pickFix (lines 175-191 of the source): the candidate at minimum distance
from the hint, starting from Number.MAX_SAFE_INTEGER and index -1; when no
candidate ever compares below the running minimum the indexing at -1 yields
undefined. -/
def pickFix (env : Env) (fixes : List Fix) (hint : Coordinates) : Option Fix :=
  let idx := pickFixLoop env hint fixes 0 (some maxSafeInteger) (-1)
  if idx < 0 then none else fixes[idx.toNat]?

/-- The nearest-airway loop of pickAirway (lines 193-209 of the source); the
distance is measured to the first fix of each airway, and the JavaScript
property access airways[i].fixes[0].location on an airway with no fixes is a
TypeError. -/
def pickAirwayLoop (env : Env) (hint : Coordinates) : List Airway → ℕ → JsNum → Int → Except UplinkError Int
  | [], _, _, best => .ok best
  | a :: rest, i, minD, best =>
    match a.fixes.head? with
    | none => .error .typeError
    | some f =>
      let d := env.distanceTo f.location hint
      if jsLt d minD then pickAirwayLoop env hint rest (i + 1) d (i : Int)
      else pickAirwayLoop env hint rest (i + 1) minD best

/-- pickAirway (lines 193-209 of the source), with the same minus-one start as
pickFix. -/
def pickAirway (env : Env) (airways : List Airway) (hint : Coordinates) : Except UplinkError (Option Airway) :=
  match pickAirwayLoop env hint airways 0 (some maxSafeInteger) (-1) with
  | .error e => .error e
  | .ok idx => .ok (if idx < 0 then none else airways[idx.toNat]?)

/-- pickAirwayFix (line 211 of the source): the first looked-up fix that
appears on the given airway, matched by identifier and region code; undefined
when none matches. -/
def pickAirwayFix (airway : Airway) (fixes : List Fix) : Option Fix :=
  fixes.find? (fun it => airway.fixes.any (fun fx => fx.ident == it.ident && fx.icaoCode == it.icaoCode))

/-- Inserting one waypoint at the cursor: the nextWaypoint mutation of the
external route followed by the cursor increment (lines 257-258, 283-284,
298-299 of the source). -/
def insertWaypointAt (env : Env) (s : SynthState) (fx : Option Fix) : SynthState :=
  { s with route := env.nextWaypointEff s.route s.insertHead fx,
           insertHead := s.insertHead + 1,
           trace := s.trace ++ [.nextWaypoint s.insertHead fx] }

/-- The search-anchor determination of the first airway branch (lines 306-313
of the source): reading the element at the cursor; on undefined the property
access .isDiscontinuity is a TypeError, a discontinuity or a leg without
termination waypoint leaves the anchor undefined. -/
def airwayAnchorAtHead (r : Route) (head : Int) : Except UplinkError (Option Fix) :=
  match elementAtRoute r head with
  | none => .error .typeError
  | some PlanElement.discontinuity => .ok none
  | some (PlanElement.leg tw) => .ok tw

/-- The shared tail of the airway branch (lines 320-330 of the source): with a
search anchor, query airways by identifier near the anchor, fail with NotFound
when none is found, otherwise append the nearest one to the accumulator;
without an anchor, fail with NotFound. `pa` is the current accumulator. -/
def airwayLookupStep (env : Env) (s : SynthState) (pa : PendingAirways) (ident : String)
    (hint : Coordinates) (anchor? : Option Fix) : SynthState × Option UplinkError :=
  match anchor? with
  | none => (s, some .notFound)
  | some anchor =>
    let airways := env.searchAirway ident anchor
    if airways.length > 0 then
      match pickAirway env airways hint with
      | .error e => (s, some e)
      | .ok aw? =>
        ({ s with pendingAirways := some (pa.thenAirway aw?),
                  trace := s.trace ++ [.thenAirway aw?] }, none)
    else (s, some .notFound)

/-- One iteration of the chunk loop of uplinkFlightPlanFromSimbrief
(lines 213-358 of the source), processing the chunk at index `i` of a sequence
of `total` chunks in state `s`; the result is the state after the iteration
together with the abort condition when the iteration throws, the state then
reflecting the mutations issued before the throw. -/
def processChunk (env : Env) (total : ℕ) (i : ℕ) (chunk : OfpRouteChunk) (s : SynthState) :
    SynthState × Option UplinkError :=
  match chunk with
  | .procedure ident =>
    if !env.doUplinkProcedures then (s, none)
    else if i != 0 && i != total - 1 then (s, some .invalidSequence)
    else if i == 0 then
      match (env.getDepartures env.fromIdent env.fromRwy).filter (fun p => p.ident == ident) with
      | [c] =>
        let r := env.setDepartureProcedureEff s.route c.databaseId
        ({ s with route := r, insertHead := computeInsertHead r,
                  trace := s.trace ++ [.setDepartureProcedure c.databaseId] }, none)
      | _ => (s, none)
    else
      match (env.getArrivals env.toIdent).filter (fun p => p.ident == ident) with
      | [c] =>
        let r := env.setArrivalEff s.route c.databaseId
        ({ s with route := r, insertHead := computeInsertHead r,
                  trace := s.trace ++ [.setArrival c.databaseId] }, none)
      | _ => (s, none)
  | .sidEnrouteTransition ident hint =>
    if !env.doUplinkProcedures then
      let fixes := env.searchAllFix ident
      if fixes.length > 0 then
        (insertWaypointAt env s (if fixes.length > 1 then pickFix env fixes hint else fixes.get? 0), none)
      else (s, some .notFound)
    else
      match s.route.originDepartureTransitions with
      | none => (s, some .typeError)
      | some transitions =>
        match transitions.filter (fun t => t.ident == ident) with
        | [c] =>
          let r := env.setDepartureEnrouteTransitionEff s.route c.databaseId
          ({ s with route := r, insertHead := computeInsertHead r,
                    trace := s.trace ++ [.setDepartureEnrouteTransition c.databaseId] }, none)
        | _ => (s, none)
  | .waypoint ident hint =>
    let s1 := if s.insertHead == -1 then { s with insertHead := computeInsertHead s.route } else s
    let fixes := env.searchAllFix ident
    if fixes.length > 0 then
      (insertWaypointAt env s1 (if fixes.length > 1 then pickFix env fixes hint else fixes.get? 0), none)
    else (s1, some .notFound)
  | .latlong lat long =>
    let s1 := if s.insertHead == -1 then { s with insertHead := computeInsertHead s.route } else s
    (insertWaypointAt env s1 (some (env.createLatLonWaypoint lat long)), none)
  | .airway ident hint =>
    match s.pendingAirways with
    | none =>
      let pa : PendingAirways := { anchorHead := s.insertHead, elements := [] }
      let s1 := { s with pendingAirways := some pa,
                         trace := s.trace ++ [.startAirwayEntry s.insertHead] }
      match airwayAnchorAtHead s1.route s1.insertHead with
      | .error e => (s1, some e)
      | .ok anchor? => airwayLookupStep env s1 pa ident hint anchor?
    | some pa =>
      match pa.elements.getLast? with
      | none => (s, some .typeError)
      | some tailElement =>
        let anchor? : Option Fix :=
          match tailElement.toFix with
          | some f => some f
          | none => tailElement.airway.bind (fun a => a.fixes.getLast?)
        airwayLookupStep env s pa ident hint anchor?
  | .airwayTermination ident =>
    let s1 : SynthState :=
      match s.pendingAirways with
      | none => { s with pendingAirways := some { anchorHead := s.insertHead, elements := [] },
                         trace := s.trace ++ [.startAirwayEntry s.insertHead] }
      | some _ => s
    match s1.pendingAirways with
    | none => (s1, some .typeError)
    | some pa =>
      match pa.elements.getLast? with
      | none => (s1, some .typeError)
      | some tailElement =>
        let fixes := env.searchAllFix ident
        if fixes.length > 0 then
          match tailElement.airway with
          | none => (s1, some .typeError)
          | some tailAirway =>
            let pa1 := pa.thenTo (pickAirwayFix tailAirway fixes)
            let s2 : SynthState :=
              { s1 with pendingAirways := some pa1,
                        trace := s1.trace ++ [.thenTo (pickAirwayFix tailAirway fixes)] }
            let r := env.finalizeEff s2.route pa1
            ({ s2 with route := r, pendingAirways := none, insertHead := computeInsertHead r,
                       trace := s2.trace ++ [.finalize] }, none)
        else (s1, some .notFound)
  | _ => (s, none)

/-- The chunk loop (lines 213-358 of the source) from index `i` on the
remaining chunks: strictly sequential, stopping at the first abort condition
and returning the state at that point. -/
def runChunksAux (env : Env) (total : ℕ) : ℕ → List OfpRouteChunk → SynthState → SynthState × Option UplinkError
  | _, [], s => (s, none)
  | i, c :: rest, s =>
    match processChunk env total i c s with
    | (s1, none) => runChunksAux env total (i + 1) rest s1
    | (s1, some e) => (s1, some e)

/-- The state at entry of the chunk loop: the route handed over by the caller
after city pair and performance setup, no pending airway, and the insertion
cursor computed once by the setInsertHeadToEndOfEnroute call at line 164 of
the source (which overwrites the -1 the cursor variable is declared with). -/
def initialState (r : Route) : SynthState :=
  { route := r, pendingAirways := none, insertHead := computeInsertHead r, trace := [] }

/-- The whole synthesis loop over a chunk sequence, starting from the freshly
prepared route `r`. -/
def runChunks (env : Env) (chunks : List OfpRouteChunk) (r : Route) : SynthState × Option UplinkError :=
  runChunksAux env chunks.length 0 chunks (initialState r)

/-! ## Concrete sample data for evaluations -/

/-- A sample navigation fix at integral coordinates. -/
def sampleFix (id regionCode : String) (la lo : ℚ) : Fix :=
  { ident := id, icaoCode := regionCode, location := { lat := some la, long := some lo } }

/-- A sample external route: one origin leg, nothing else, as left by a fresh
city pair; the computed insertion cursor is 0. -/
def sampleRoute : Route :=
  { originSegmentLegCount := 1
  , departureRunwayTransitionSegmentLegCount := 0
  , departureSegmentLegCount := 0
  , departureEnrouteTransitionSegmentLegCount := 0
  , enrouteSegmentLegCount := 0
  , allLegs := [PlanElement.leg (some (sampleFix "EDDF" "ED" 50 8))]
  , originDepartureTransitions := none }

/-- A baseline concrete environment: empty navigation database, identity route
mutations, and a distance function that propagates NaN (any coordinate that is
NaN makes the distance NaN, as great-circle arithmetic does in JavaScript) and
otherwise returns the latitude of the first point, so sample fixes can encode
their intended distance in their latitude. -/
def baseEnv : Env :=
  { doUplinkProcedures := false
  , fromIdent := "EDDF"
  , fromRwy := "07C"
  , toIdent := "EGLL"
  , searchAllFix := fun _ => []
  , searchAirway := fun _ _ => []
  , getDepartures := fun _ _ => []
  , getArrivals := fun _ => []
  , distanceTo := fun a b =>
      match a.lat, a.long, b.lat, b.long with
      | some p, some _, some _, some _ => some p
      | _, _, _, _ => none
  , createLatLonWaypoint := fun la lo => { ident := "LL01", icaoCode := "XX", location := { lat := la, long := lo } }
  , nextWaypointEff := fun r _ _ => r
  , setDepartureProcedureEff := fun r _ => r
  , setArrivalEff := fun r _ => r
  , setDepartureEnrouteTransitionEff := fun r _ => r
  , finalizeEff := fun r _ => r }

example : computeInsertHead sampleRoute = 0 := by decide
example : runChunks baseEnv [.latlong (some 1) (some 2)] sampleRoute
    = ({ route := sampleRoute, pendingAirways := none, insertHead := 1,
         trace := [.nextWaypoint 0 (some (baseEnv.createLatLonWaypoint (some 1) (some 2)))] }, none) := by decide

/-! ## Claim theorems about the classifier -/

/-- C1: for the input fix sequence of the specification example (an airport
fix; A and B via SIDX marked SID/STAR; C via SIDX not marked SID/STAR with a
coordinate hint; D via DCT; E and F via AWY1; G via DCT), the classifier
returns exactly the six chunks Procedure(SIDX), SidEnrouteTransition(C),
Waypoint(D), Airway(AWY1), AirwayTermination(F), Waypoint(G), in that order. -/
theorem classifier_example_route :
    generateRouteInstructionsFromNavlog exampleNavlog =
      [ .procedure "SIDX"
      , .sidEnrouteTransition "C" { lat := some 3, long := some 3 }
      , .waypoint "D" { lat := some 4, long := some 4 }
      , .airway "AWY1" { lat := some 5, long := some 5 }
      , .airwayTermination "F"
      , .waypoint "G" { lat := some 7, long := some 7 } ] := by decide

/-- Counterexample to C2: two ordinary fixes with the same via identifier
AWY1, no SID/STAR marker and no coordinate-type fix classify to a Waypoint, an
Airway and an AirwayTermination, so the output is not only Waypoint chunks and
not one chunk per fix. -/
theorem same_via_not_only_waypoints :
    generateRouteInstructionsFromNavlog sameViaNavlog =
      [ .waypoint "A" { lat := some 1, long := some 1 }
      , .airway "AWY1" { lat := some 2, long := some 2 }
      , .airwayTermination "B" ]
    ∧ (generateRouteInstructionsFromNavlog sameViaNavlog).all (fun c => chunkIsWaypoint c) = false
    ∧ (generateRouteInstructionsFromNavlog sameViaNavlog).length ≠ sameViaNavlog.length := by decide

/-- If every chunk of a list is a Waypoint chunk, its last element is neither
a procedure nor an airway chunk for any identifier. -/
theorem getLast_waypoints_not_special (acc : List OfpRouteChunk)
    (hacc : ∀ c ∈ acc, chunkIsWaypoint c = true) (x : String) :
    isProcedureFor acc.getLast? x = false ∧ isAirwayFor acc.getLast? x = false := by
  match h : acc.getLast? with
  | none => simp [isProcedureFor, isAirwayFor]
  | some c =>
    have hc : c ∈ acc := by
      rcases List.getLast?_eq_some_iff.mp h with ⟨ys, rfl⟩
      exact List.mem_append.mpr (Or.inr (by simp))
    have hw := hacc c hc
    cases c <;> simp_all [chunkIsWaypoint, isProcedureFor, isAirwayFor]

/-- One non-skipped iteration of the classifier on a direct-routing,
non-SID/STAR, non-coordinate fix appends exactly one Waypoint chunk, provided
everything emitted so far is a Waypoint chunk. -/
theorem classify_step_direct (prev : Option RawFix) (f : RawFix) (next : Option RawFix)
    (acc : List OfpRouteChunk) (hacc : ∀ c ∈ acc, chunkIsWaypoint c = true)
    (hVia : isDirectVia f.via_airway = true) (hSid : f.is_sid_star ≠ "1") (hType : f.type ≠ "ltlg") :
    classifyPost f next (classifyMain prev f acc) =
      acc ++ [.waypoint f.ident { lat := parseFloat f.pos_lat, long := parseFloat f.pos_long }] := by
  have hSid' : (f.is_sid_star == "1") = false := beq_eq_false_iff_ne.mpr hSid
  have hType' : (f.type == "ltlg") = false := beq_eq_false_iff_ne.mpr hType
  have hps := getLast_waypoints_not_special acc hacc f.via_airway
  have hmain : classifyMain prev f acc =
      acc ++ [.waypoint f.ident { lat := parseFloat f.pos_lat, long := parseFloat f.pos_long }] := by
    simp [classifyMain, hSid', hType', hps.1, hVia]
  rw [hmain]
  simp [classifyPost, List.getLast?_concat, chunkIsAirway]

/-- The classifier loop on a list of direct-routing, non-SID/STAR,
non-coordinate fixes appends one Waypoint chunk per non-skipped fix, starting
from any all-Waypoint accumulator. -/
theorem classifyGo_direct (l : List RawFix) : ∀ (prev : Option RawFix) (acc : List OfpRouteChunk),
    (∀ f ∈ l, isDirectVia f.via_airway = true) →
    (∀ f ∈ l, f.is_sid_star ≠ "1") →
    (∀ f ∈ l, f.type ≠ "ltlg") →
    (∀ c ∈ acc, chunkIsWaypoint c = true) →
    classifyGo prev l acc =
      acc ++ (l.filter (fun f => !skipFix f)).map
        (fun f => .waypoint f.ident { lat := parseFloat f.pos_lat, long := parseFloat f.pos_long }) := by
  induction l with
  | nil => intro prev acc _ _ _ _; simp [classifyGo]
  | cons f rest ih =>
    intro prev acc hVia hSid hType hacc
    have hViaf := hVia f (by simp)
    have hSidf := hSid f (by simp)
    have hTypef := hType f (by simp)
    have hViar : ∀ g ∈ rest, isDirectVia g.via_airway = true := fun g hg => hVia g (by simp [hg])
    have hSidr : ∀ g ∈ rest, g.is_sid_star ≠ "1" := fun g hg => hSid g (by simp [hg])
    have hTyper : ∀ g ∈ rest, g.type ≠ "ltlg" := fun g hg => hType g (by simp [hg])
    by_cases hskip : skipFix f = true
    · rw [classifyGo, if_pos hskip, ih (some f) acc hViar hSidr hTyper hacc]
      simp [List.filter_cons, hskip]
    · have hskip' : skipFix f = false := by simpa using hskip
      rw [classifyGo, if_neg (by simp [hskip']),
        classify_step_direct prev f rest.head? acc hacc hViaf hSidf hTypef,
        ih (some f) _ hViar hSidr hTyper]
      · simp [List.filter_cons, hskip']
      · intro c hc
        rcases List.mem_append.mp hc with h | h
        · exact hacc c h
        · simp at h; simp [h, chunkIsWaypoint]

/-- C2, amended: for every raw fix sequence in which every via identifier is a
direct-routing marker (DCT, DCT*, or an oceanic NAT track code), no fix is
marked SID/STAR and no fix has the coordinate type tag, the classifier emits
only Waypoint chunks, exactly one per fix that is neither an airport marker
nor a TOC/TOD marker, in input order. -/
theorem direct_via_all_waypoints (navlog : List RawFix)
    (hVia : ∀ f ∈ navlog, isDirectVia f.via_airway = true)
    (hSid : ∀ f ∈ navlog, f.is_sid_star ≠ "1")
    (hType : ∀ f ∈ navlog, f.type ≠ "ltlg") :
    generateRouteInstructionsFromNavlog navlog =
      (navlog.filter (fun f => !skipFix f)).map
        (fun f => .waypoint f.ident { lat := parseFloat f.pos_lat, long := parseFloat f.pos_long }) := by
  simpa [generateRouteInstructionsFromNavlog] using
    classifyGo_direct navlog none [] hVia hSid hType (by simp)

/-- Witness for the amended C2 at a concrete three-fix input containing a TOC
marker. -/
theorem direct_via_all_waypoints_witness :
    generateRouteInstructionsFromNavlog
      [ { ident := "A", type := "wpt", pos_lat := "1", pos_long := "1", via_airway := "DCT", is_sid_star := "0" }
      , { ident := "TOC", type := "wpt", pos_lat := "2", pos_long := "2", via_airway := "DCT", is_sid_star := "0" }
      , { ident := "B", type := "wpt", pos_lat := "3", pos_long := "3", via_airway := "NATC", is_sid_star := "0" } ] =
      [ .waypoint "A" { lat := some 1, long := some 1 }
      , .waypoint "B" { lat := some 3, long := some 3 } ] := by
  have h := direct_via_all_waypoints
    [ { ident := "A", type := "wpt", pos_lat := "1", pos_long := "1", via_airway := "DCT", is_sid_star := "0" }
    , { ident := "TOC", type := "wpt", pos_lat := "2", pos_long := "2", via_airway := "DCT", is_sid_star := "0" }
    , { ident := "B", type := "wpt", pos_lat := "3", pos_long := "3", via_airway := "NATC", is_sid_star := "0" } ]
    (by decide) (by decide) (by decide)
  simpa using h

/-- The airway-termination discipline checker: runs over a chunk list carrying
a flag that is true when the previous chunk was an airway awaiting its
termination; the result is none when the discipline is broken (a termination
chunk without an airway chunk immediately before it, or an airway chunk not
immediately followed by a termination chunk) and otherwise the final flag. -/
def aptRun : Bool → List OfpRouteChunk → Option Bool
  | b, [] => some b
  | b, c :: rest =>
    if b then (if chunkIsTermination c then aptRun false rest else none)
    else (if chunkIsTermination c then none else aptRun (chunkIsAirway c) rest)

/-- A chunk list in which every airway chunk is immediately followed by
exactly one airwayTermination chunk and every airwayTermination chunk
immediately follows an airway chunk. -/
def airwaysProperlyTerminated (l : List OfpRouteChunk) : Bool :=
  aptRun false l == some false

/-- The discipline checker distributes over concatenation. -/
theorem aptRun_append (l₁ l₂ : List OfpRouteChunk) : ∀ b,
    aptRun b (l₁ ++ l₂) = (aptRun b l₁).bind (fun b2 => aptRun b2 l₂) := by
  induction l₁ with
  | nil => intro b; simp [aptRun]
  | cons c rest ih =>
    intro b
    cases b <;> by_cases ht : chunkIsTermination c = true <;> simp [aptRun, ht, ih]

/-- A successful run of the discipline checker ends with the flag describing
the last chunk: true exactly when the list ends in an airway chunk. -/
theorem aptRun_last (l : List OfpRouteChunk) : ∀ (b0 b : Bool), aptRun b0 l = some b →
    b = (match l.getLast? with | none => b0 | some c => chunkIsAirway c) := by
  induction l with
  | nil => intro b0 b h; simp [aptRun] at h; simp [h]
  | cons c rest ih =>
    intro b0 b h
    cases rest with
    | nil =>
      cases b0 <;> by_cases ht : chunkIsTermination c = true <;>
        simp [aptRun, ht] at h <;>
        cases c <;> simp_all [chunkIsTermination, chunkIsAirway, aptRun]
    | cons r rs =>
      have hne : (r :: rs).getLast?.isSome := by
        rw [Option.isSome_iff_exists]
        cases hgl : (r :: rs).getLast? with
        | none => simp_all
        | some d => exact ⟨d, rfl⟩
      rcases Option.isSome_iff_exists.mp hne with ⟨d, hd⟩
      have hstep : ∃ b1, aptRun b1 (r :: rs) = some b := by
        rw [aptRun] at h
        cases b0 with
        | false =>
          rw [if_neg (by simp)] at h
          by_cases ht : chunkIsTermination c = true
          · rw [if_pos ht] at h; exact absurd h (by simp)
          · rw [if_neg ht] at h; exact ⟨_, h⟩
        | true =>
          rw [if_pos rfl] at h
          by_cases ht : chunkIsTermination c = true
          · rw [if_pos ht] at h; exact ⟨_, h⟩
          · rw [if_neg ht] at h; exact absurd h (by simp)
      rcases hstep with ⟨b1, hb1⟩
      have := ih b1 b hb1
      rw [List.getLast?_cons_cons, hd]
      rw [hd] at this
      exact this

/-- If no chunk of a list is a procedure chunk, its last element does not pass
the procedure-for test for any identifier. -/
theorem isProcedureFor_eq_false (acc : List OfpRouteChunk)
    (hacc : ∀ c ∈ acc, chunkIsProcedure c = false) (x : String) :
    isProcedureFor acc.getLast? x = false := by
  match h : acc.getLast? with
  | none => simp [isProcedureFor]
  | some c =>
    have hc : c ∈ acc := by
      rcases List.getLast?_eq_some_iff.mp h with ⟨ys, rfl⟩
      exact List.mem_append.mpr (Or.inr (by simp))
    have := hacc c hc
    cases c <;> simp_all [chunkIsProcedure, isProcedureFor]

/-- A chunk that is not an airway chunk does not pass the airway-for test. -/
theorem isAirwayFor_eq_false (c : OfpRouteChunk) (hc : chunkIsAirway c = false) (x : String) :
    isAirwayFor (some c) x = false := by
  cases c <;> simp_all [chunkIsAirway, isAirwayFor]

/-- The classifier main body on a non-SID/STAR fix that enters the airway rule
with a last instruction that is not an airway chunk appends exactly the airway
chunk, with no inner termination. -/
theorem classifyMain_new_airway (prev : Option RawFix) (f : RawFix) (acc : List OfpRouteChunk)
    (hsidf : (f.is_sid_star == "1") = false)
    (hpf : isProcedureFor acc.getLast? f.via_airway = false)
    (hd : (isDirectVia f.via_airway || acc.isEmpty) = false)
    (hna : ∀ c, acc.getLast? = some c → chunkIsAirway c = false) :
    classifyMain prev f acc =
      acc ++ [.airway f.via_airway { lat := parseFloat f.pos_lat, long := parseFloat f.pos_long }] := by
  cases prev with
  | none =>
    cases hgl : acc.getLast? with
    | none =>
      rw [hgl] at hpf
      simp [classifyMain, hsidf, hpf, hd, hgl, isAirwayFor]
    | some c =>
      rw [hgl] at hpf
      have hg := isAirwayFor_eq_false c (hna c hgl) f.via_airway
      simp [classifyMain, hsidf, hpf, hd, hgl, hg]
  | some p =>
    cases hgl : acc.getLast? with
    | none =>
      rw [hgl] at hpf
      simp [classifyMain, hsidf, hpf, hd, hgl, isAirwayFor]
    | some c =>
      rw [hgl] at hpf
      have hg := isAirwayFor_eq_false c (hna c hgl) f.via_airway
      simp [classifyMain, hsidf, hpf, hd, hgl, hg, hna c hgl]

/-- The classifier main body on a non-SID/STAR fix whose via identifier is the
identifier of the airway chunk the accumulator ends in emits nothing. -/
theorem classifyMain_same_airway (prev : Option RawFix) (f : RawFix) (acc : List OfpRouteChunk)
    (hsidf : (f.is_sid_star == "1") = false)
    (hpf : isProcedureFor acc.getLast? f.via_airway = false)
    (hd : (isDirectVia f.via_airway || acc.isEmpty) = false)
    (hguard : isAirwayFor acc.getLast? f.via_airway = true) :
    classifyMain prev f acc = acc := by
  simp [classifyMain, hsidf, hpf, hd, hguard]

/-- The classifier main body on a non-SID/STAR direct-routing fix appends
exactly one waypoint or latlong chunk, depending on the type tag. -/
theorem classifyMain_direct (prev : Option RawFix) (f : RawFix) (acc : List OfpRouteChunk)
    (hsidf : (f.is_sid_star == "1") = false)
    (hpf : isProcedureFor acc.getLast? f.via_airway = false)
    (hd : (isDirectVia f.via_airway || acc.isEmpty) = true) :
    classifyMain prev f acc =
      acc ++ [if (f.type == "ltlg") = true then .latlong (parseFloat f.pos_lat) (parseFloat f.pos_long)
              else .waypoint f.ident { lat := parseFloat f.pos_lat, long := parseFloat f.pos_long }] := by
  by_cases hlt : (f.type == "ltlg") = true <;> simp [classifyMain, hsidf, hpf, hd, hlt]

/-- The airway-termination discipline invariant of the classifier loop: on a
navlog without skip markers and without SID/STAR fixes, starting from an
accumulator without procedure chunks that either already satisfies the
discipline and does not end in an airway chunk, or ends in a dangling airway
chunk whose non-direct via identifier is carried by the next raw fix, the loop
ends in a list satisfying the discipline. -/
theorem classifyGo_apt (l : List RawFix) : ∀ (prev : Option RawFix) (acc : List OfpRouteChunk),
    (∀ f ∈ l, skipFix f = false) →
    (∀ f ∈ l, f.is_sid_star ≠ "1") →
    (∀ c ∈ acc, chunkIsProcedure c = false) →
    (aptRun false acc = some false ∨
      (aptRun false acc = some true ∧
        ∃ X hh, acc.getLast? = some (.airway X hh) ∧ isDirectVia X = false ∧
          (∃ f rest, l = f :: rest ∧ f.via_airway = X))) →
    aptRun false (classifyGo prev l acc) = some false := by
  induction l with
  | nil =>
    intro prev acc _ _ _ hinv
    rcases hinv with h | ⟨_, _, _, _, _, _, _, hcontr, _⟩
    · simpa [classifyGo] using h
    · exact absurd hcontr (by simp)
  | cons f rest ih =>
    intro prev acc hSkip hSid hProc hinv
    have hskf : skipFix f = false := hSkip f (by simp)
    have hsidf : (f.is_sid_star == "1") = false := beq_eq_false_iff_ne.mpr (hSid f (by simp))
    have hSkipr : ∀ g ∈ rest, skipFix g = false := fun g hg => hSkip g (by simp [hg])
    have hSidr : ∀ g ∈ rest, g.is_sid_star ≠ "1" := fun g hg => hSid g (by simp [hg])
    rw [classifyGo, if_neg (by simp [hskf])]
    rcases hinv with hA | ⟨hrun, X, hh, hlast, hdir, g, rest2, hl, hgvia⟩
    · -- the accumulator satisfies the discipline and does not end in an airway
      have hlastNotAirway : ∀ c, acc.getLast? = some c → chunkIsAirway c = false := by
        intro c hc
        have := aptRun_last acc false false hA
        rw [hc] at this
        exact this.symm
      have hpf : isProcedureFor acc.getLast? f.via_airway = false := isProcedureFor_eq_false acc hProc _
      by_cases hd : (isDirectVia f.via_airway || acc.isEmpty) = true
      · -- rule 3: a waypoint or latlong chunk is appended
        have hmain : ∃ c0, chunkIsAirway c0 = false ∧ chunkIsTermination c0 = false ∧
            chunkIsProcedure c0 = false ∧
            classifyMain prev f acc = acc ++ [c0] := by
          by_cases hlt : (f.type == "ltlg") = true
          · refine ⟨.latlong (parseFloat f.pos_lat) (parseFloat f.pos_long), by simp [chunkIsAirway],
              by simp [chunkIsTermination], by simp [chunkIsProcedure], ?_⟩
            simp [classifyMain, hsidf, hpf, hd, hlt]
          · refine ⟨.waypoint f.ident { lat := parseFloat f.pos_lat, long := parseFloat f.pos_long },
              by simp [chunkIsAirway], by simp [chunkIsTermination], by simp [chunkIsProcedure], ?_⟩
            simp [classifyMain, hsidf, hpf, hd, hlt]
        rcases hmain with ⟨c0, hc0a, hc0t, hc0p, hmain⟩
        have hpost : classifyPost f rest.head? (classifyMain prev f acc) = acc ++ [c0] := by
          rw [hmain]
          simp [classifyPost, List.getLast?_concat, hc0a]
        rw [hpost]
        refine ih (some f) (acc ++ [c0]) hSkipr hSidr ?_ (Or.inl ?_)
        · intro c hc
          rcases List.mem_append.mp hc with h | h
          · exact hProc c h
          · simp at h; subst h; exact hc0p
        · rw [aptRun_append, hA]
          simp [aptRun, hc0t, hc0a]
      · -- rule 4: an airway chunk is appended
        have hdir' : isDirectVia f.via_airway = false := by
          by_cases h1 : isDirectVia f.via_airway = true
          · exact absurd (by simp [h1]) hd
          · simpa using h1
        have hguard : isAirwayFor acc.getLast? f.via_airway = false := by
          match hgl : acc.getLast? with
          | none => simp [isAirwayFor]
          | some c => exact isAirwayFor_eq_false c (hlastNotAirway c hgl) _
        have hd0 : (isDirectVia f.via_airway || acc.isEmpty) = false := by
          simpa using hd
        have hmain : classifyMain prev f acc =
            acc ++ [.airway f.via_airway { lat := parseFloat f.pos_lat, long := parseFloat f.pos_long }] :=
          classifyMain_new_airway prev f acc hsidf hpf hd0 hlastNotAirway
        by_cases hnx : ((rest.head?.map (fun n => n.via_airway)) != some f.via_airway) = true
        · -- the airway is closed immediately by the post-check
          have hpost : classifyPost f rest.head? (classifyMain prev f acc) =
              acc ++ [.airway f.via_airway { lat := parseFloat f.pos_lat, long := parseFloat f.pos_long },
                      .airwayTermination f.ident] := by
            rw [hmain, classifyPost]
            rw [if_pos (by simp [List.getLast?_concat, chunkIsAirway, hnx])]
            simp
          rw [hpost]
          refine ih (some f) _ hSkipr hSidr ?_ (Or.inl ?_)
          · intro c hc
            rcases List.mem_append.mp hc with h | h
            · exact hProc c h
            · simp at h
              rcases h with h | h <;> subst h <;> simp [chunkIsProcedure]
          · rw [aptRun_append, hA]
            simp [aptRun, chunkIsAirway, chunkIsTermination]
        · -- the next raw fix carries the same via identifier: the airway dangles
          have hnx' : rest.head?.map (fun n => n.via_airway) = some f.via_airway := by
            simpa using hnx
          rcases rest with _ | ⟨g, rest2⟩
          · simp at hnx'
          · have hgvia : g.via_airway = f.via_airway := by simpa using hnx'
            have hpost : classifyPost f (g :: rest2).head? (classifyMain prev f acc) =
                acc ++ [.airway f.via_airway { lat := parseFloat f.pos_lat, long := parseFloat f.pos_long }] := by
              rw [hmain, classifyPost]
              rw [if_neg (by simp [List.getLast?_concat, chunkIsAirway, hnx', hgvia])]
            rw [hpost]
            refine ih (some f) _ hSkipr hSidr ?_ (Or.inr ?_)
            · intro c hc
              rcases List.mem_append.mp hc with h | h
              · exact hProc c h
              · simp at h; subst h; simp [chunkIsProcedure]
            · refine ⟨?_, f.via_airway, { lat := parseFloat f.pos_lat, long := parseFloat f.pos_long },
                by simp [List.getLast?_concat], hdir', g, rest2, rfl, hgvia⟩
              rw [aptRun_append, hA]
              simp [aptRun, chunkIsAirway, chunkIsTermination]
    · -- the accumulator ends in a dangling airway and the current fix stays on it
      injection hl with hl1 hl2
      subst hl1; subst hl2
      have hfvia : f.via_airway = X := hgvia
      have hne : acc ≠ [] := by
        intro hn; subst hn; simp at hlast
      have hpf : isProcedureFor acc.getLast? f.via_airway = false := by
        rw [hlast]; simp [isProcedureFor]
      have hd : (isDirectVia f.via_airway || acc.isEmpty) = false := by
        have hem : acc.isEmpty = false := by
          cases acc with
          | nil => exact absurd rfl hne
          | cons a l => rfl
        simp [hem, hfvia, hdir]
      have hguard : isAirwayFor acc.getLast? f.via_airway = true := by
        rw [hlast, hfvia]; simp [isAirwayFor]
      have hmain : classifyMain prev f acc = acc :=
        classifyMain_same_airway prev f acc hsidf hpf hd hguard
      by_cases hnx : ((rest.head?.map (fun n => n.via_airway)) != some f.via_airway) = true
      · -- the post-check closes the airway now
        have hpost : classifyPost f rest.head? (classifyMain prev f acc) =
            acc ++ [.airwayTermination f.ident] := by
          rw [hmain, classifyPost]
          rw [if_pos (by simp [hlast, chunkIsAirway, hnx])]
        rw [hpost]
        refine ih (some f) _ hSkipr hSidr ?_ (Or.inl ?_)
        · intro c hc
          rcases List.mem_append.mp hc with h | h
          · exact hProc c h
          · simp at h; subst h; simp [chunkIsProcedure]
        · rw [aptRun_append, hrun]
          simp [aptRun, chunkIsTermination]
      · -- the airway still dangles and the next raw fix stays on it
        have hnx' : rest.head?.map (fun n => n.via_airway) = some f.via_airway := by
          simpa using hnx
        rcases rest with _ | ⟨g2, rest3⟩
        · simp at hnx'
        · have hg2via : g2.via_airway = f.via_airway := by simpa using hnx'
          have hpost : classifyPost f (g2 :: rest3).head? (classifyMain prev f acc) = acc := by
            rw [hmain, classifyPost]
            rw [if_neg (by simp [hlast, chunkIsAirway, hnx', hg2via])]
          rw [hpost]
          refine ih (some f) acc hSkipr hSidr hProc (Or.inr ?_)
          exact ⟨hrun, X, hh, hlast, hdir, g2, rest3, rfl, by rw [hg2via, hgvia]⟩

/-- C3, amended: for every input fix sequence containing no TOC/TOD markers,
no airport markers and no SID/STAR-marked fixes, every Airway chunk of the
classifier output is immediately followed by exactly one AirwayTermination
chunk (in particular before the output ends and before any chunk of a
different via identifier), and every AirwayTermination chunk immediately
follows an Airway chunk. -/
theorem airway_immediately_terminated (navlog : List RawFix)
    (hSkip : ∀ f ∈ navlog, skipFix f = false)
    (hSid : ∀ f ∈ navlog, f.is_sid_star ≠ "1") :
    airwaysProperlyTerminated (generateRouteInstructionsFromNavlog navlog) = true := by
  have h := classifyGo_apt navlog none [] hSkip hSid (by simp) (Or.inl (by simp [aptRun]))
  simp [airwaysProperlyTerminated, generateRouteInstructionsFromNavlog, h]

/-- Witness for the amended C3 at a concrete four-fix input entering and
leaving an airway. -/
theorem airway_immediately_terminated_witness :
    airwaysProperlyTerminated (generateRouteInstructionsFromNavlog
      [ { ident := "D", type := "wpt", pos_lat := "1", pos_long := "1", via_airway := "DCT", is_sid_star := "0" }
      , { ident := "E", type := "wpt", pos_lat := "2", pos_long := "2", via_airway := "AWY1", is_sid_star := "0" }
      , { ident := "F", type := "wpt", pos_lat := "3", pos_long := "3", via_airway := "AWY1", is_sid_star := "0" }
      , { ident := "G", type := "wpt", pos_lat := "4", pos_long := "4", via_airway := "DCT", is_sid_star := "0" } ]) = true :=
  airway_immediately_terminated _ (by decide) (by decide)

/-- Counterexample to C3: in the output for tocSwallowNavlog there is an
Airway chunk and no AirwayTermination chunk at all, because the TOC marker
carrying the via identifier of the airway suppresses the end-of-airway
post-check and is then skipped. -/
theorem airway_without_termination_example :
    generateRouteInstructionsFromNavlog tocSwallowNavlog =
      [ .waypoint "D" { lat := some 1, long := some 1 }
      , .airway "AWY1" { lat := some 2, long := some 2 }
      , .waypoint "G" { lat := some 4, long := some 4 } ]
    ∧ (generateRouteInstructionsFromNavlog tocSwallowNavlog).countP (fun c => chunkIsAirway c) = 1
    ∧ (generateRouteInstructionsFromNavlog tocSwallowNavlog).countP (fun c => chunkIsTermination c) = 0 := by
  decide

/-- Counterexample to C4: the two consecutive SID/STAR fixes of twoProcNavlog
have differing via identifiers P1 and P2, yet the classifier emits a single
Procedure chunk, not two, because the collapse test looks only at the chunk
tag and never compares identifiers. -/
theorem two_sid_star_single_procedure :
    generateRouteInstructionsFromNavlog twoProcNavlog = [.procedure "P1"]
    ∧ (generateRouteInstructionsFromNavlog twoProcNavlog).countP (fun c => chunkIsProcedure c) ≠ 2 := by
  decide

/-- C4, amended: a fix marked SID/STAR emits a Procedure chunk carrying its
via identifier unless the immediately preceding emitted chunk is a Procedure
of any identifier; in particular two consecutive SID/STAR fixes always
classify to the single Procedure chunk of the first via identifier, even when
the two via identifiers differ. -/
theorem sid_star_collapse_any_ident :
    (∀ (prev next : Option RawFix) (f : RawFix) (acc : List OfpRouteChunk),
        f.is_sid_star = "1" →
        classifyPost f next (classifyMain prev f acc) =
          (if (match acc.getLast? with | some c => chunkIsProcedure c | none => false) then acc
           else acc ++ [.procedure f.via_airway]))
    ∧ (∀ f1 f2 : RawFix, skipFix f1 = false → skipFix f2 = false →
        f1.is_sid_star = "1" → f2.is_sid_star = "1" →
        generateRouteInstructionsFromNavlog [f1, f2] = [.procedure f1.via_airway]) := by
  constructor
  · intro prev next f acc hSid
    have hmain : classifyMain prev f acc =
        (if (match acc.getLast? with | some c => chunkIsProcedure c | none => false) then acc
         else acc ++ [.procedure f.via_airway]) := by
      match h : acc.getLast? with
      | none => simp [classifyMain, hSid, h]
      | some c => by_cases hp : chunkIsProcedure c = true <;> simp [classifyMain, hSid, h, hp]
    rw [hmain]
    match h : acc.getLast? with
    | none =>
      simp only [h]
      simp [classifyPost, List.getLast?_concat, chunkIsAirway]
    | some c =>
      by_cases hp : chunkIsProcedure c = true
      · have hna : chunkIsAirway c = false := by cases c <;> simp_all [chunkIsProcedure, chunkIsAirway]
        simp only [h, hp, if_true]
        simp [classifyPost, h, hna]
      · simp only [h, hp]
        simp [classifyPost, List.getLast?_concat, chunkIsAirway, hp]
  · intro f1 f2 hk1 hk2 hSid1 hSid2
    simp [generateRouteInstructionsFromNavlog, classifyGo, hk1, hk2, classifyMain, classifyPost,
      hSid1, hSid2, chunkIsProcedure, chunkIsAirway, List.getLast?_concat]

/-- Witness for the amended C4 at the concrete differing-via input. -/
theorem sid_star_collapse_any_ident_witness :
    generateRouteInstructionsFromNavlog twoProcNavlog = [.procedure "P1"] :=
  sid_star_collapse_any_ident.2
    { ident := "A", type := "wpt", pos_lat := "1", pos_long := "1", via_airway := "P1", is_sid_star := "1" }
    { ident := "B", type := "wpt", pos_lat := "2", pos_long := "2", via_airway := "P2", is_sid_star := "1" }
    (by decide) (by decide) (by decide) (by decide)

/-! ## Claim theorems about the synthesizer -/

/-- The chunk loop distributes over concatenation: the second part runs from
the state and index the first part ends in, unless the first part aborts. -/
theorem runChunksAux_append (env : Env) (total : ℕ) (l₁ l₂ : List OfpRouteChunk) : ∀ (i : ℕ) (s : SynthState),
    runChunksAux env total i (l₁ ++ l₂) s =
      (match runChunksAux env total i l₁ s with
       | (s1, none) => runChunksAux env total (i + l₁.length) l₂ s1
       | (s1, some e) => (s1, some e)) := by
  induction l₁ with
  | nil => intro i s; simp [runChunksAux]
  | cons c rest ih =>
    intro i s
    rw [List.cons_append, runChunksAux, runChunksAux]
    match h : processChunk env total i c s with
    | (s1, none) =>
      simp only [ih]
      have hlc : i + 1 + rest.length = i + (c :: rest).length := by simp; omega
      rw [hlc]
    | (s1, some e) => rfl

/-- C5: with procedure uplinking enabled, a Procedure chunk at any position
other than the first or the last aborts the run with InvalidSequence as soon
as it is reached, and no chunk beyond that point is applied: the run result is
exactly the state reached before the offending chunk, with the
InvalidSequence condition. -/
theorem procedure_mid_sequence_invalid (env : Env) (chunks : List OfpRouteChunk) (r : Route)
    (j : ℕ) (ident : String) (s : SynthState)
    (hDo : env.doUplinkProcedures = true)
    (hj : chunks[j]? = some (.procedure ident))
    (h0 : 0 < j) (hLast : j < chunks.length - 1)
    (hReach : runChunksAux env chunks.length 0 (chunks.take j) (initialState r) = (s, none)) :
    runChunks env chunks r = (s, some .invalidSequence) := by
  have hjlen : j < chunks.length := lt_of_lt_of_le hLast (Nat.sub_le _ _)
  have hdrop : chunks.drop j = OfpRouteChunk.procedure ident :: chunks.drop (j + 1) := by
    rw [List.drop_eq_getElem_cons hjlen]
    have hg : chunks[j] = OfpRouteChunk.procedure ident := by
      have := List.getElem?_eq_getElem hjlen
      rw [hj] at this
      exact (Option.some_injective _ this).symm
    rw [hg]
  have hlen : (chunks.take j).length = j := by
    simp [List.length_take, Nat.min_eq_left (le_of_lt hjlen)]
  have h1 : runChunks env chunks r
      = runChunksAux env chunks.length 0 (chunks.take j ++ chunks.drop j) (initialState r) := by
    rw [runChunks, List.take_append_drop]
  rw [h1, runChunksAux_append, hReach]
  simp only [hlen, Nat.zero_add, hdrop]
  rw [runChunksAux]
  have hj0 : (j != 0) = true := by simp; omega
  have hjl : (j != chunks.length - 1) = true := by simp; omega
  simp [processChunk, hDo, hj0, hjl]

/-- A concrete environment with procedure uplinking enabled. -/
def procEnv : Env := { baseEnv with doUplinkProcedures := true }

/-- A concrete three-chunk sequence with a Procedure chunk in the middle. -/
def midProcChunks : List OfpRouteChunk :=
  [.latlong (some 1) (some 2), .procedure "PROC1", .latlong (some 3) (some 4)]

/-- Witness for C5: the concrete three-chunk sequence whose second chunk is a
Procedure aborts with InvalidSequence in the state reached after the first
chunk. -/
theorem procedure_mid_sequence_invalid_witness :
    ∃ s, runChunksAux procEnv midProcChunks.length 0 (midProcChunks.take 1) (initialState sampleRoute) = (s, none)
      ∧ runChunks procEnv midProcChunks sampleRoute = (s, some .invalidSequence) := by
  refine ⟨_, rfl, ?_⟩
  exact procedure_mid_sequence_invalid procEnv midProcChunks sampleRoute 1 "PROC1" _
    rfl rfl (by decide) (by decide) rfl

/-- C6: a Waypoint chunk whose identifier lookup returns zero fixes aborts the
run with NotFound the moment it is reached, and inserts no leg: the run result
is exactly the state reached before the failing chunk, so the external route,
the trace of mutation calls and the insertion cursor are unchanged by it. -/
theorem waypoint_empty_lookup_not_found (env : Env) (chunks : List OfpRouteChunk) (r : Route)
    (j : ℕ) (ident : String) (hint : Coordinates) (s : SynthState)
    (hj : chunks[j]? = some (.waypoint ident hint))
    (hReach : runChunksAux env chunks.length 0 (chunks.take j) (initialState r) = (s, none))
    (hHead : s.insertHead ≠ -1)
    (hLookup : env.searchAllFix ident = []) :
    runChunks env chunks r = (s, some .notFound) := by
  have hjlen : j < chunks.length := by
    by_contra hcon
    rw [List.getElem?_eq_none (Nat.le_of_not_lt hcon)] at hj
    cases hj
  have hdrop : chunks.drop j = OfpRouteChunk.waypoint ident hint :: chunks.drop (j + 1) := by
    rw [List.drop_eq_getElem_cons hjlen]
    have hg : chunks[j] = OfpRouteChunk.waypoint ident hint := by
      have := List.getElem?_eq_getElem hjlen
      rw [hj] at this
      exact (Option.some_injective _ this).symm
    rw [hg]
  have hlen : (chunks.take j).length = j := by
    simp [List.length_take, Nat.min_eq_left (le_of_lt hjlen)]
  have h1 : runChunks env chunks r
      = runChunksAux env chunks.length 0 (chunks.take j ++ chunks.drop j) (initialState r) := by
    rw [runChunks, List.take_append_drop]
  rw [h1, runChunksAux_append, hReach]
  simp only [hlen, Nat.zero_add, hdrop]
  rw [runChunksAux]
  have hH : (s.insertHead == -1) = false := by simpa using hHead
  simp [processChunk, hH, hLookup]

/-- Witness for C6: a single Waypoint chunk whose identifier the empty sample
database does not know aborts with NotFound in the unchanged initial state. -/
theorem waypoint_empty_lookup_not_found_witness :
    runChunks baseEnv [.waypoint "ABCDE" { lat := some 1, long := some 1 }] sampleRoute
      = (initialState sampleRoute, some .notFound) :=
  waypoint_empty_lookup_not_found baseEnv _ sampleRoute 0 "ABCDE" { lat := some 1, long := some 1 }
    (initialState sampleRoute) rfl rfl (by decide) rfl

/-- The JavaScript comparison is true exactly on two ordinary values in
strict order; in particular it is never true against NaN. -/
theorem jsLt_eq_true_iff (a b : JsNum) :
    jsLt a b = true ↔ ∃ x y, a = some x ∧ b = some y ∧ x < y := by
  cases a <;> cases b <;> simp [jsLt]

/-- The nearest-fix loop keeps its current best index when no remaining
distance compares below the running minimum. -/
theorem pickFixLoop_no_update (env : Env) (hint : Coordinates) (l : List Fix) :
    ∀ (i : ℕ) (minD : JsNum) (best : Int),
    (∀ f ∈ l, jsLt (env.distanceTo f.location hint) minD = false) →
    pickFixLoop env hint l i minD best = best := by
  induction l with
  | nil => intro i minD best _; rfl
  | cons f rest ih =>
    intro i minD best h
    simp only [pickFixLoop]
    rw [if_neg (by simp [h f (by simp)])]
    exact ih (i + 1) minD best (fun g hg => h g (by simp [hg]))

/-- The nearest-fix loop returns the index of the first fix attaining the
minimum distance: every earlier candidate is strictly farther (or NaN), the
running minimum is still above the minimum, and no later candidate compares
below it. -/
theorem pickFixLoop_first_min (env : Env) (hint : Coordinates) (fj : Fix) (qj : ℚ)
    (post : List Fix)
    (hdj : env.distanceTo fj.location hint = some qj)
    (hpost : ∀ f ∈ post, jsLt (env.distanceTo f.location hint) (some qj) = false) :
    ∀ (pre : List Fix) (i : ℕ) (minD : JsNum) (best : Int),
    jsLt (some qj) minD = true →
    (∀ f ∈ pre, ∀ q, env.distanceTo f.location hint = some q → qj < q) →
    pickFixLoop env hint (pre ++ fj :: post) i minD best = ((i + pre.length : ℕ) : Int) := by
  intro pre
  induction pre with
  | nil =>
    intro i minD best hmin _
    simp only [List.nil_append, pickFixLoop]
    rw [hdj, if_pos hmin, pickFixLoop_no_update env hint post (i + 1) (some qj) (i : Int) hpost]
    simp
  | cons g pre' ih =>
    intro i minD best hmin hpre
    simp only [List.cons_append, pickFixLoop]
    have harith : ((i + 1 + pre'.length : ℕ) : Int) = ((i + (g :: pre').length : ℕ) : Int) := by
      simp; omega
    by_cases hup : jsLt (env.distanceTo g.location hint) minD = true
    · rw [if_pos hup]
      rcases (jsLt_eq_true_iff _ _).mp hup with ⟨qg, m, hqg, hm, _⟩
      have hgt : qj < qg := hpre g (by simp) qg hqg
      rw [← harith]
      exact ih (i + 1) (env.distanceTo g.location hint) (i : Int)
        (by rw [hqg]; simpa [jsLt] using hgt)
        (fun f hf q hq => hpre f (by simp [hf]) q hq)
    · rw [if_neg hup, ← harith]
      exact ih (i + 1) minD best hmin (fun f hf q hq => hpre f (by simp [hf]) q hq)

/-- pickFix returns the first fix attaining the minimum distance to the hint,
provided that distance is an ordinary value below Number.MAX_SAFE_INTEGER. -/
theorem pickFix_first_min (env : Env) (hint : Coordinates) (pre post : List Fix) (fj : Fix) (qj : ℚ)
    (hdj : env.distanceTo fj.location hint = some qj)
    (hmax : qj < maxSafeInteger)
    (hpre : ∀ f ∈ pre, ∀ q, env.distanceTo f.location hint = some q → qj < q)
    (hpost : ∀ f ∈ post, jsLt (env.distanceTo f.location hint) (some qj) = false) :
    pickFix env (pre ++ fj :: post) hint = some fj := by
  rw [pickFix]
  rw [pickFixLoop_first_min env hint fj qj post hdj hpost pre 0 (some maxSafeInteger) (-1)
    (by simpa [jsLt] using hmax) hpre]
  rw [if_neg (by simp)]
  rw [Int.toNat_natCast]
  rw [List.getElem?_append_right (by simp)]
  simp

/-- C7: when a Waypoint chunk identifier lookup returns more than one
candidate fix, synthesis inserts the candidate with minimum distance to the
location hint of the chunk, breaking distance ties in favor of the candidate
encountered first in lookup order: if fj is the first candidate attaining the
minimum (all earlier candidates strictly farther or at NaN distance, no later
candidate strictly nearer), the processed chunk inserts fj at the cursor and
advances the cursor by one. -/
theorem waypoint_picks_nearest_fix (env : Env) (total i : ℕ) (ident : String) (hint : Coordinates)
    (s : SynthState) (pre post : List Fix) (fj : Fix) (qj : ℚ)
    (hLookup : env.searchAllFix ident = pre ++ fj :: post)
    (hLen : 1 < (pre ++ fj :: post).length)
    (hdj : env.distanceTo fj.location hint = some qj)
    (hmax : qj < maxSafeInteger)
    (hpre : ∀ f ∈ pre, ∀ q, env.distanceTo f.location hint = some q → qj < q)
    (hpost : ∀ f ∈ post, jsLt (env.distanceTo f.location hint) (some qj) = false)
    (hHead : s.insertHead ≠ -1) :
    processChunk env total i (.waypoint ident hint) s =
      ({ s with route := env.nextWaypointEff s.route s.insertHead (some fj),
                insertHead := s.insertHead + 1,
                trace := s.trace ++ [.nextWaypoint s.insertHead (some fj)] }, none) := by
  have hH : (s.insertHead == -1) = false := by simpa using hHead
  have hpick := pickFix_first_min env hint pre post fj qj hdj hmax hpre hpost
  have h0 : 0 < (pre ++ fj :: post).length := Nat.lt_trans Nat.zero_lt_one hLen
  have hLen1 : 1 < pre.length + (post.length + 1) := by simpa using hLen
  simp [processChunk, hH, hLookup, h0, hLen1, hpick, insertWaypointAt]

/-- The two sample fixes named XYZ: by the sample distance function, the first
is at distance 5 from any ordinary hint and the second at distance 50. -/
def xyzFixNear : Fix := sampleFix "XYZ" "K1" 5 100

/-- The farther sample fix named XYZ. -/
def xyzFixFar : Fix := sampleFix "XYZ" "K2" 50 200

/-- An environment whose database returns the two XYZ candidates. -/
def xyzEnv : Env :=
  { baseEnv with searchAllFix := fun id => if id == "XYZ" then [xyzFixNear, xyzFixFar] else [] }

/-- Witness for C7: of the two XYZ candidates at distances 5 and 50 from the
hint, the distance-5 candidate is inserted. -/
theorem waypoint_picks_nearest_fix_witness :
    processChunk xyzEnv 1 0 (.waypoint "XYZ" { lat := some 0, long := some 0 }) (initialState sampleRoute) =
      ({ initialState sampleRoute with
           route := xyzEnv.nextWaypointEff (initialState sampleRoute).route 0 (some xyzFixNear),
           insertHead := 1,
           trace := [.nextWaypoint 0 (some xyzFixNear)] }, none) := by
  have h := waypoint_picks_nearest_fix xyzEnv 1 0 "XYZ" { lat := some 0, long := some 0 }
    (initialState sampleRoute) [] [xyzFixFar] xyzFixNear 5
    rfl (by decide) rfl (by decide)
    (fun f hf q hq => absurd hf (by simp))
    (by decide) (by decide)
  simpa using h

/-- The per-chunk cursor invariant of C8: the cursor is non-negative and so is
the cursor value a recomputation on the current route data would produce. -/
def cursorInv (s : SynthState) : Prop :=
  0 ≤ s.insertHead ∧ 0 ≤ computeInsertHead s.route

/-- Environment assumption for C8: each of the five route mutation primitives
preserves non-negativity of the recomputed end-of-enroute cursor (true of the
real flight plan service, whose origin segment always holds at least the
origin leg). -/
def envPreservesCursor (env : Env) : Prop :=
  (∀ ro i fx, 0 ≤ computeInsertHead ro → 0 ≤ computeInsertHead (env.nextWaypointEff ro i fx)) ∧
  (∀ ro id, 0 ≤ computeInsertHead ro → 0 ≤ computeInsertHead (env.setDepartureProcedureEff ro id)) ∧
  (∀ ro id, 0 ≤ computeInsertHead ro → 0 ≤ computeInsertHead (env.setArrivalEff ro id)) ∧
  (∀ ro id, 0 ≤ computeInsertHead ro → 0 ≤ computeInsertHead (env.setDepartureEnrouteTransitionEff ro id)) ∧
  (∀ ro pa, 0 ≤ computeInsertHead ro → 0 ≤ computeInsertHead (env.finalizeEff ro pa))

/-- Every chunk preserves the cursor invariant, whatever its outcome. -/
theorem processChunk_cursor (env : Env) (henv : envPreservesCursor env)
    (total i : ℕ) (c : OfpRouteChunk) (s : SynthState) (hs : cursorInv s) :
    cursorInv (processChunk env total i c s).1 := by
  obtain ⟨hNext, hDep, hArr, hTrans, hFin⟩ := henv
  obtain ⟨h1, h2⟩ := hs
  have hH : (s.insertHead == -1) = false := by
    have hne : s.insertHead ≠ -1 := by omega
    simpa using hne
  have hIns : ∀ fx, cursorInv (insertWaypointAt env s fx) := by
    intro fx
    constructor
    · simp only [insertWaypointAt]
      omega
    · simp only [insertWaypointAt]
      exact hNext _ _ _ h2
  cases c with
  | procedure ident =>
    simp only [processChunk]
    repeat' split
    all_goals first
      | exact ⟨h1, h2⟩
      | exact ⟨hDep _ _ h2, hDep _ _ h2⟩
      | exact ⟨hArr _ _ h2, hArr _ _ h2⟩
  | sidEnrouteTransition ident hint =>
    simp only [processChunk]
    repeat' split
    all_goals first
      | exact ⟨h1, h2⟩
      | exact hIns _
      | exact ⟨hTrans _ _ h2, hTrans _ _ h2⟩
  | waypoint ident hint =>
    simp only [processChunk, hH, Bool.false_eq_true, if_false]
    split
    · exact hIns _
    · exact ⟨h1, h2⟩
  | latlong lat long =>
    simp only [processChunk, hH, Bool.false_eq_true, if_false]
    exact hIns _
  | airway ident hint =>
    simp only [processChunk, airwayLookupStep]
    repeat' split
    all_goals exact ⟨h1, h2⟩
  | airwayTermination ident =>
    simp only [processChunk]
    repeat' split
    all_goals first
      | exact ⟨h1, h2⟩
      | exact ⟨hFin _ _ h2, hFin _ _ h2⟩
  | dct => exact ⟨h1, h2⟩
  | starEnrouteTransition ident => exact ⟨h1, h2⟩

/-- The whole loop preserves the cursor invariant. -/
theorem runChunksAux_cursor (env : Env) (henv : envPreservesCursor env) (total : ℕ)
    (l : List OfpRouteChunk) : ∀ (i : ℕ) (s : SynthState), cursorInv s →
    cursorInv (runChunksAux env total i l s).1 := by
  induction l with
  | nil => intro i s hs; exact hs
  | cons c rest ih =>
    intro i s hs
    have hstep := processChunk_cursor env henv total i c s hs
    rcases h : processChunk env total i c s with ⟨s1, e?⟩
    rw [h] at hstep
    rw [runChunksAux, h]
    cases e? with
    | none => exact ih (i + 1) s1 hstep
    | some e => exact hstep

/-- C8: the insertion cursor is computed once before the first chunk (in
initialState, modelling the setInsertHeadToEndOfEnroute call at line 164); if
the route handed over satisfies the non-negativity of the computed cursor and
all route mutations preserve it, then after every prefix of the run the
cursor is non-negative — never the sentinel -1 — so the establish-cursor
branches of the Waypoint and LatLong handlers never fire and the cursor is a
valid index at every chunk. -/
theorem insertion_cursor_always_valid (env : Env) (chunks : List OfpRouteChunk) (r : Route)
    (henv : envPreservesCursor env)
    (hr : 0 ≤ computeInsertHead r) :
    ∀ n : ℕ, 0 ≤ (runChunksAux env chunks.length 0 (chunks.take n) (initialState r)).1.insertHead :=
  fun n => (runChunksAux_cursor env henv chunks.length (chunks.take n) 0 (initialState r) ⟨hr, hr⟩).1

/-- A sample chunk sequence exercising waypoint and latlong handlers. -/
def cursorChunks : List OfpRouteChunk :=
  [.latlong (some 1) (some 2), .waypoint "XYZ" { lat := some 0, long := some 0 }]

/-- Witness for C8 on a concrete run: identity mutations preserve the
computed cursor of the sample route, so the cursor is still non-negative
after the full two-chunk prefix. -/
theorem insertion_cursor_always_valid_witness :
    0 ≤ (runChunksAux xyzEnv cursorChunks.length 0 (cursorChunks.take 2) (initialState sampleRoute)).1.insertHead :=
  insertion_cursor_always_valid xyzEnv cursorChunks sampleRoute
    ⟨fun ro i fx h => h, fun ro id h => h, fun ro id h => h, fun ro id h => h, fun ro pa h => h⟩
    (by decide) 2

/-- C9: an AirwayTermination chunk whose identifier lookup returns a non-empty
set of fixes, none of which matches any fix of the most recently appended
airway by both identifier and region code, does not fail with NotFound: the
append-termination-fix primitive is applied with no fix (the undefined result
of pickAirwayFix) and the pending airway is finalized anyway, the chunk
succeeding. -/
theorem airway_termination_no_match_finalizes (env : Env) (total i : ℕ) (ident : String)
    (s : SynthState) (pa : PendingAirways) (el : PendingAirwayElement) (A : Airway)
    (hPA : s.pendingAirways = some pa)
    (hLast : pa.elements.getLast? = some el)
    (hAw : el.airway = some A)
    (hFixes : env.searchAllFix ident ≠ [])
    (hNoMatch : ∀ f ∈ env.searchAllFix ident, ∀ fx ∈ A.fixes,
        ¬(fx.ident = f.ident ∧ fx.icaoCode = f.icaoCode)) :
    processChunk env total i (.airwayTermination ident) s =
      ({ s with route := env.finalizeEff s.route (pa.thenTo none),
                pendingAirways := none,
                insertHead := computeInsertHead (env.finalizeEff s.route (pa.thenTo none)),
                trace := s.trace ++ [.thenTo none, .finalize] }, none) := by
  have hfind : pickAirwayFix A (env.searchAllFix ident) = none := by
    rw [pickAirwayFix, List.find?_eq_none]
    intro f hf
    simp only [List.any_eq_true, Bool.and_eq_true, beq_iff_eq, not_exists, not_and]
    intro fx hfx e1
    exact fun e2 => hNoMatch f hf fx hfx ⟨e1, e2⟩
  have hlen : 0 < (env.searchAllFix ident).length := List.length_pos.mpr hFixes
  simp [processChunk, hPA, hLast, hAw, hlen, hfind, PendingAirways.thenTo]

/-- The sample airway used by the C9 witness, whose fixes share neither
identifier nor region code with the looked-up OTHER fix. -/
def termAirway : Airway := { ident := "AWY9", fixes := [sampleFix "P1" "K1" 1 1, sampleFix "P2" "K1" 2 2] }

/-- A database returning one fix named OTHER. -/
def termEnv : Env :=
  { baseEnv with searchAllFix := fun id => if id == "OTHER" then [sampleFix "OTHER" "K9" 9 9] else [] }

/-- A state with a pending airway whose last element carries termAirway. -/
def termState : SynthState :=
  { route := sampleRoute
  , pendingAirways := some { anchorHead := 0, elements := [{ airway := some termAirway, toFix := none }] }
  , insertHead := 0
  , trace := [] }

/-- Witness for C9 at the concrete no-match lookup. -/
theorem airway_termination_no_match_finalizes_witness :
    processChunk termEnv 1 0 (.airwayTermination "OTHER") termState =
      ({ termState with
           route := termEnv.finalizeEff termState.route
             (PendingAirways.thenTo { anchorHead := 0, elements := [{ airway := some termAirway, toFix := none }] } none),
           pendingAirways := none,
           insertHead := computeInsertHead (termEnv.finalizeEff termState.route
             (PendingAirways.thenTo { anchorHead := 0, elements := [{ airway := some termAirway, toFix := none }] } none)),
           trace := [.thenTo none, .finalize] }, none) := by
  have h := airway_termination_no_match_finalizes termEnv 1 0 "OTHER" termState
    { anchorHead := 0, elements := [{ airway := some termAirway, toFix := none }] }
    { airway := some termAirway, toFix := none } termAirway
    rfl rfl rfl (by decide) (by decide)
  simpa using h

/-- C10: for the input consisting of a single fix named XYZ with malformed
coordinate text, the classifier produces a Waypoint chunk whose location hint
is NaN in both coordinates; with two candidate fixes in the database, every
distance to that hint is NaN, every comparison against NaN is false, the
minimum index stays -1 and pickFix returns the undefined fix; the Waypoint
handler then proceeds, inserting the undefined fix at the cursor instead of
failing. -/
theorem nan_hint_inserts_undefined_fix :
    generateRouteInstructionsFromNavlog
        [{ ident := "XYZ", type := "wpt", pos_lat := "N49", pos_long := "W050", via_airway := "DCT", is_sid_star := "0" }]
      = [.waypoint "XYZ" { lat := none, long := none }]
    ∧ pickFix xyzEnv (xyzEnv.searchAllFix "XYZ") { lat := none, long := none } = none
    ∧ processChunk xyzEnv 1 0 (.waypoint "XYZ" { lat := none, long := none }) (initialState sampleRoute)
      = ({ route := sampleRoute, pendingAirways := none, insertHead := 1,
           trace := [.nextWaypoint 0 none] }, none) := by
  refine ⟨by decide, by decide, by decide⟩

end SimBriefUplink
